import Mathlib

/-!
Shallow embedding of `src/api.py` (a Flask + pandas time-series query service).

Modelling conventions:
- Column labels and their characters are modelled as lists of Unicode code
  points (`List Nat`); the pandas string methods `strip` / `lower` /
  `replace` become the pointwise functions below.
- `pd.to_datetime(..., errors="coerce")` applied to a raw table cell is
  modelled by the cell already carrying its parse result (`Option Nat`,
  dates as order-preserving ordinals, `none` = `NaT`).  For query strings
  the parse is the executable `parseDate` below (ISO `YYYY-MM-DD`).
- A pandas missing value (`NaN`) in a string or numeric cell is `none`.
- Numeric cells are integers (the endpoints cast values with `int(...)`).
- A Python dict whose keys may be absent (the KPI payload) is a structure
  of `Option` fields, `none` = key omitted.
-/

namespace Phars

/-- One character of a pandas column label, as a code point.
`pyIsSpace` is Python/pandas `str.strip` whitespace (ASCII range). -/
def pyIsSpace (c : Nat) : Bool :=
  c == 32 || c == 9 || c == 10 || c == 13 || c == 11 || c == 12

/-- `str.lower` on one code point (ASCII letters). -/
def pyToLower (c : Nat) : Nat :=
  if 65 ≤ c ∧ c ≤ 90 then c + 32 else c

/-- `str.replace(a, b)` on one code point. -/
def pyReplaceChar (a b c : Nat) : Nat :=
  if c = a then b else c

/-- `Series.str.replace(a, b)` over a label (api.py lines 14-15). -/
def pyReplace (a b : Nat) (l : List Nat) : List Nat :=
  l.map (pyReplaceChar a b)

/-- `Series.str.strip()` over a label (api.py line 12): drop leading and
trailing whitespace. -/
def pyStrip (l : List Nat) : List Nat :=
  ((l.dropWhile pyIsSpace).reverse.dropWhile pyIsSpace).reverse

/-- The column-label transform of `normalize_columns` (api.py lines 10-16):
strip, lowercase, replace `' '` (32) and `'/'` (47) by `'_'` (95). -/
def normalizeLabel (l : List Nat) : List Nat :=
  pyReplace 47 95 (pyReplace 32 95 ((pyStrip l).map pyToLower))

/-- `normalize_columns` (api.py lines 8-17), acting on the column labels. -/
def normalize_columns (cols : List (List Nat)) : List (List Nat) :=
  cols.map normalizeLabel

/-- Code points of a string literal, to write labels conveniently. -/
def strL (s : String) : List Nat :=
  s.data.map Char.toNat

/-- The per-character composite applied by `normalizeLabel` after stripping. -/
def normChar (c : Nat) : Nat :=
  pyReplaceChar 47 95 (pyReplaceChar 32 95 (pyToLower c))

theorem normalizeLabel_eq_map_strip (l : List Nat) :
    normalizeLabel l = (pyStrip l).map normChar := by
  simp only [normalizeLabel, pyReplace, List.map_map]
  rfl

theorem normChar_not_space {c : Nat} (h : pyIsSpace c = false) :
    pyIsSpace (normChar c) = false := by
  simp only [pyIsSpace, normChar, pyReplaceChar, pyToLower] at *
  split_ifs <;> simp_all

theorem normChar_idem (c : Nat) : normChar (normChar c) = normChar c := by
  simp only [normChar, pyReplaceChar, pyToLower]
  split_ifs <;> omega

theorem dropWhile_eq_self_of_head {p : Nat → Bool} {l : List Nat}
    (h : ∀ c, l.head? = some c → p c = false) : l.dropWhile p = l := by
  cases l with
  | nil => rfl
  | cons a t => simp [List.dropWhile_cons, h a rfl]

theorem head?_dropWhile_false {p : Nat → Bool} (l : List Nat) :
    ∀ c, (l.dropWhile p).head? = some c → p c = false := by
  induction l with
  | nil => simp
  | cons a t ih =>
    intro c hc
    by_cases hp : p a
    · rw [List.dropWhile_cons, if_pos hp] at hc
      exact ih c hc
    · rw [List.dropWhile_cons, if_neg hp] at hc
      simp at hc
      subst hc
      simpa using hp

theorem getLast?_dropWhile_some {p : Nat → Bool} {l : List Nat} {c : Nat}
    (h : (l.dropWhile p).getLast? = some c) : l.getLast? = some c := by
  induction l with
  | nil => simp at h
  | cons a t ih =>
    by_cases hp : p a
    · rw [List.dropWhile_cons, if_pos hp] at h
      have ht := ih h
      cases t with
      | nil => simp at ht
      | cons y ys => rw [List.getLast?_cons_cons]; exact ht
    · rwa [List.dropWhile_cons, if_neg hp] at h

theorem pyStrip_getLast?_not_space (l : List Nat) :
    ∀ c, (pyStrip l).getLast? = some c → pyIsSpace c = false := by
  intro c hc
  rw [pyStrip, List.getLast?_reverse] at hc
  exact head?_dropWhile_false _ c hc

theorem pyStrip_head?_not_space (l : List Nat) :
    ∀ c, (pyStrip l).head? = some c → pyIsSpace c = false := by
  intro c hc
  rw [pyStrip, List.head?_reverse] at hc
  have h2 := getLast?_dropWhile_some hc
  rw [List.getLast?_reverse] at h2
  exact head?_dropWhile_false _ c h2

theorem pyStrip_eq_self {l : List Nat}
    (h1 : ∀ c, l.head? = some c → pyIsSpace c = false)
    (h2 : ∀ c, l.getLast? = some c → pyIsSpace c = false) :
    pyStrip l = l := by
  rw [pyStrip, dropWhile_eq_self_of_head h1]
  rw [dropWhile_eq_self_of_head (by simpa [List.head?_reverse] using h2)]
  exact List.reverse_reverse l

/-- C9: column-label normalization is idempotent: normalizing any label
twice (mixed case, whitespace, internal spaces, slashes included) yields
the same label as normalizing it once. -/
theorem normalizeLabel_idempotent (l : List Nat) :
    normalizeLabel (normalizeLabel l) = normalizeLabel l := by
  rw [normalizeLabel_eq_map_strip l]
  rw [normalizeLabel_eq_map_strip ((pyStrip l).map normChar)]
  have hhead : ∀ c, ((pyStrip l).map normChar).head? = some c → pyIsSpace c = false := by
    intro c hc
    rw [List.head?_map] at hc
    cases hs : (pyStrip l).head? with
    | none => rw [hs] at hc; simp at hc
    | some c0 =>
      rw [hs] at hc
      simp at hc
      subst hc
      exact normChar_not_space (pyStrip_head?_not_space l c0 hs)
  have hlast : ∀ c, ((pyStrip l).map normChar).getLast? = some c → pyIsSpace c = false := by
    intro c hc
    rw [List.getLast?_map] at hc
    cases hs : (pyStrip l).getLast? with
    | none => rw [hs] at hc; simp at hc
    | some c0 =>
      rw [hs] at hc
      simp at hc
      subst hc
      exact normChar_not_space (pyStrip_getLast?_not_space l c0 hs)
  rw [pyStrip_eq_self hhead hlast, List.map_map]
  exact List.map_congr_left (fun c _ => normChar_idem c)

/-! ## Date and integer parsing of query strings -/

/-- Value of one decimal digit character; `none` for non-digits. -/
def digitVal (c : Char) : Option Nat :=
  if c.isDigit then some (c.toNat - 48) else none

/-- Parse a non-empty all-digit character list as a natural number. -/
def natOfDigits : List Char → Option Nat
  | [] => none
  | l => l.foldl (fun acc c =>
      match acc, digitVal c with
      | some n, some d => some (n * 10 + d)
      | _, _ => none) (some 0)

/-- Split a character list on `'-'`. -/
def splitDash : List Char → List (List Char)
  | [] => [[]]
  | c :: rest =>
    if c = '-' then [] :: splitDash rest
    else
      match splitDash rest with
      | [] => [[c]]
      | h :: t => (c :: h) :: t

/-- Model of `pd.to_datetime(s, errors="coerce")` on a query string:
accepts ISO `YYYY-MM-DD`, yielding a strictly date-ordered ordinal;
anything else coerces to `NaT` (`none`).  The claims use this function
only through parse success/failure and order of the resulting ordinals. -/
def parseDate (s : String) : Option Nat :=
  match splitDash s.data with
  | [y, m, d] =>
    match natOfDigits y, natOfDigits m, natOfDigits d with
    | some yn, some mn, some dn =>
      if 1 ≤ mn ∧ mn ≤ 12 ∧ 1 ≤ dn ∧ dn ≤ 31 then
        some (yn * 372 + (mn - 1) * 31 + (dn - 1))
      else none
    | _, _, _ => none
  | _ => none

/-- Model of Python `int(s)` on a query string: an optional minus sign
followed by decimal digits; anything else raises `ValueError` (`none`).
(Python also tolerates surrounding whitespace and `+`; the claims only
distinguish parse success from failure, so those forms are not needed.) -/
def pyInt (s : String) : Option Int :=
  match s.data with
  | '-' :: rest => (natOfDigits rest).map (fun n => -(n : Int))
  | l => (natOfDigits l).map (fun n => (n : Int))

/-! ## Raw table and Dataset (api.py lines 19-38) -/

/-- One raw row of the source table.  The `date` cell carries the result
of `pd.to_datetime(cell, errors="coerce")` (api.py line 29); every other
cell is `none` when the value is missing (`NaN`).  Cells of columns not
present in the table are ignored by the loader via the schema flags. -/
structure RawRecord where
  date : Option Nat
  location : Option String
  location_level : Option String
  new_cases : Option Int
  new_deaths : Option Int
  total_cases : Option Int
  total_deaths : Option Int
deriving DecidableEq, Repr

/-- The raw table read by `pd.read_csv` (api.py line 20): free-form column
labels plus rows. -/
structure RawTable where
  rawCols : List (List Nat)
  rows : List RawRecord
deriving DecidableEq, Repr

/-- Columns of the table after `normalize_columns` (api.py line 21). -/
def normCols (t : RawTable) : List (List Nat) :=
  normalize_columns t.rawCols

/-- One record of the built Dataset: the date is the (always valid)
parsed date. -/
structure Record where
  date : Nat
  location : Option String
  location_level : Option String
  new_cases : Option Int
  new_deaths : Option Int
  total_cases : Option Int
  total_deaths : Option Int
deriving DecidableEq, Repr

/-- The in-memory Dataset: the records plus schema membership of the
optional numeric columns (`"x" in df.columns` checks in api.py). -/
structure Dataset where
  has_new_cases : Bool
  has_new_deaths : Bool
  has_total_cases : Bool
  has_total_deaths : Bool
  records : List Record
deriving DecidableEq, Repr

/-- Row conversion inside `load_df`: rows whose date coerced to `NaT` are
dropped (api.py line 30 `dropna(subset=["date"])`); when the table has no
`location_level` column, the loader synthesizes the constant `"Unknown"`
(api.py lines 33-34). -/
def recordOfRow (t : RawTable) (r : RawRecord) : Option Record :=
  r.date.map (fun d =>
    { date := d
      location := r.location
      location_level :=
        if strL "location_level" ∈ normCols t then r.location_level
        else some "Unknown"
      new_cases := r.new_cases
      new_deaths := r.new_deaths
      total_cases := r.total_cases
      total_deaths := r.total_deaths })

/-- `load_df` (api.py lines 19-36): normalize columns, require `date` and
`location` (raising otherwise), parse dates dropping unparseable rows,
default `location_level`. -/
def load_df (t : RawTable) : Except String Dataset :=
  if strL "date" ∉ normCols t then
    Except.error "No date column found"
  else if strL "location" ∉ normCols t then
    Except.error "No location column found"
  else
    Except.ok
      { has_new_cases := strL "new_cases" ∈ normCols t
        has_new_deaths := strL "new_deaths" ∈ normCols t
        has_total_cases := strL "total_cases" ∈ normCols t
        has_total_deaths := strL "total_deaths" ∈ normCols t
        records := t.rows.filterMap (recordOfRow t) }

/-! ## Query and filter evaluation (api.py lines 40-64) -/

/-- The request's query parameters as `request.args.get` returns them:
`none` when absent, otherwise the raw string.  The source's `end`
parameter is spelled `end_` (Lean keyword). -/
structure Query where
  location : Option String
  level : Option String
  start : Option String
  end_ : Option String
deriving DecidableEq, Repr

/-- Python truthiness of an optional string (`if level:` etc.):
`None` and `""` are falsy. -/
def pyTruthy : Option String → Bool
  | none => false
  | some s => !(s == "")

/-- `apply_filters` (api.py lines 40-64).  Each present-and-truthy clause
filters by pandas `==` / `>=` / `<=` comparison; a `NaN` cell (`none`)
never compares equal to a string.  A `start`/`end` string that coerces to
`NaT` applies no bound (lines 55-56, 60-61). -/
def apply_filters (ds : Dataset) (q : Query) : List Record :=
  let out := ds.records
  let out := if pyTruthy q.level then
      out.filter (fun r => r.location_level == q.level)
    else out
  let out := if pyTruthy q.location then
      out.filter (fun r => r.location == q.location)
    else out
  let out := if pyTruthy q.start then
      match parseDate (q.start.getD "") with
      | some s => out.filter (fun r => decide (s ≤ r.date))
      | none => out
    else out
  let out := if pyTruthy q.end_ then
      match parseDate (q.end_.getD "") with
      | some e => out.filter (fun r => decide (r.date ≤ e))
      | none => out
    else out
  out

/-! ## Sorting by date (`df.sort_values("date")`) -/

/-- Ordered insertion by date (ties keep existing elements first). -/
def insertDate (r : Record) : List Record → List Record
  | [] => [r]
  | x :: xs => if r.date ≤ x.date then r :: x :: xs else x :: insertDate r xs

/-- Model of `df.sort_values("date")`: a date-ascending sort. -/
def sortByDate : List Record → List Record
  | [] => []
  | r :: rs => insertDate r (sortByDate rs)

/-- `df.tail(n)`: the last `n` elements. -/
def pdTail (n : Nat) (l : List Record) : List Record :=
  l.drop (l.length - n)

/-! ## Summary endpoint (api.py lines 90-113) -/

/-- The KPI dict; `none` = key omitted from the payload. -/
structure Kpi where
  min_date : Option Nat
  max_date : Option Nat
  total_cases : Option Int
  total_deaths : Option Int
  new_cases_7d : Option Int
  new_deaths_7d : Option Int
deriving DecidableEq, Repr

/-- The empty KPI mapping `{}`. -/
def emptyKpi : Kpi :=
  { min_date := none, max_date := none, total_cases := none,
    total_deaths := none, new_cases_7d := none, new_deaths_7d := none }

/-- The `/api/summary` JSON payload. -/
structure SummaryResult where
  count : Nat
  kpi : Kpi
  message : Option String
deriving DecidableEq, Repr

/-- `Series.min()` over the date column. -/
def seriesMin : List Nat → Option Nat
  | [] => none
  | h :: t => some (t.foldl min h)

/-- `Series.max()` over the date column. -/
def seriesMax : List Nat → Option Nat
  | [] => none
  | h :: t => some (t.foldl max h)

/-- `summary` (api.py lines 90-113) over an already filtered-and-sorted
frame: `df.empty` is `getLast? = none`; otherwise `last = df.iloc[-1]`
is the last element.  Each optional KPI key mirrors the corresponding
`if` in the source; `fillna(0)` is `Option.getD 0`. -/
def summaryOf (ds : Dataset) (df : List Record) : SummaryResult :=
  match df.getLast? with
  | none => { count := 0, kpi := emptyKpi, message := some "No data for filters" }
  | some last =>
    { count := df.length
      kpi :=
        { min_date := seriesMin (df.map (fun r => r.date))
          max_date := seriesMax (df.map (fun r => r.date))
          total_cases :=
            if ds.has_total_cases && last.total_cases.isSome then last.total_cases else none
          total_deaths :=
            if ds.has_total_deaths && last.total_deaths.isSome then last.total_deaths else none
          new_cases_7d :=
            if ds.has_new_cases then
              some (((pdTail 7 df).map (fun r => r.new_cases.getD 0)).sum)
            else none
          new_deaths_7d :=
            if ds.has_new_deaths then
              some (((pdTail 7 df).map (fun r => r.new_deaths.getD 0)).sum)
            else none }
      message := none }

/-- The `/api/summary` route: filter, sort, aggregate. -/
def summary (ds : Dataset) (q : Query) : SummaryResult :=
  summaryOf ds (sortByDate (apply_filters ds q))

/-! ## Cases endpoint (api.py lines 115-137) -/

/-- `limit` handling (api.py lines 119-123): default string `"3000"`,
`int(...)` then clamp into `[1, 20000]`; `ValueError` falls back to 3000. -/
def parseLimit (limRaw : Option String) : Nat :=
  let limit := limRaw.getD "3000"
  match pyInt limit with
  | some n => (max 1 (min n 20000)).toNat
  | none => 3000

/-- The `/api/cases` JSON payload.  The source then projects each record
onto the allow-listed columns present in the schema and formats dates;
that projection is per-record and preserves count and order, so the
claims are stated on the selected records. -/
structure CasesResult where
  count : Nat
  data : List Record
deriving DecidableEq, Repr

/-- The `/api/cases` route (api.py lines 115-137): filter, sort, take the
last `limit_n` records. -/
def cases (ds : Dataset) (q : Query) (limRaw : Option String) : CasesResult :=
  let df := sortByDate (apply_filters ds q)
  let limit_n := parseLimit limRaw
  let out := pdTail limit_n df
  { count := out.length, data := out }

/-! ## Lemmas about the date sort -/

theorem mem_insertDate (b r : Record) (l : List Record) :
    b ∈ insertDate r l ↔ b = r ∨ b ∈ l := by
  induction l with
  | nil => simp [insertDate]
  | cons x xs ih =>
    simp only [insertDate]
    split
    · simp
    · simp only [List.mem_cons, ih]
      tauto

theorem length_insertDate (r : Record) (l : List Record) :
    (insertDate r l).length = l.length + 1 := by
  induction l with
  | nil => rfl
  | cons x xs ih =>
    simp only [insertDate]
    split <;> simp [ih]

theorem length_sortByDate (l : List Record) :
    (sortByDate l).length = l.length := by
  induction l with
  | nil => rfl
  | cons r rs ih => simp [sortByDate, length_insertDate, ih]

theorem sortByDate_eq_nil_iff (l : List Record) :
    sortByDate l = [] ↔ l = [] := by
  constructor
  · intro h
    have := length_sortByDate l
    rw [h] at this
    exact List.length_eq_zero.mp this.symm
  · intro h; subst h; rfl

theorem sorted_insertDate (r : Record) (l : List Record)
    (h : l.Pairwise (fun a b => a.date ≤ b.date)) :
    (insertDate r l).Pairwise (fun a b => a.date ≤ b.date) := by
  induction l with
  | nil => simp [insertDate]
  | cons x xs ih =>
    rcases List.pairwise_cons.mp h with ⟨hx, hxs⟩
    simp only [insertDate]
    split
    · refine List.pairwise_cons.mpr ⟨?_, h⟩
      intro b hb
      rcases List.mem_cons.mp hb with hb | hb
      · subst hb; omega
      · exact le_trans (by omega) (hx b hb)
    · refine List.pairwise_cons.mpr ⟨?_, ih hxs⟩
      intro b hb
      rcases (mem_insertDate b r xs).mp hb with hb | hb
      · subst hb; omega
      · exact hx b hb

theorem sorted_sortByDate (l : List Record) :
    (sortByDate l).Pairwise (fun a b => a.date ≤ b.date) := by
  induction l with
  | nil => simp [sortByDate]
  | cons r rs ih => exact sorted_insertDate r _ ih

theorem le_of_getLast?_sorted (l : List Record) (m : Record)
    (hs : l.Pairwise (fun a b => a.date ≤ b.date)) (hm : l.getLast? = some m) :
    ∀ r ∈ l, r.date ≤ m.date := by
  induction l with
  | nil => simp at hm
  | cons x xs ih =>
    intro r hr
    rcases List.mem_cons.mp hr with hr | hr
    · subst hr
      cases xs with
      | nil => simp at hm; subst hm; omega
      | cons y ys =>
        rw [List.getLast?_cons_cons] at hm
        have hmmem : m ∈ y :: ys := List.mem_of_getLast?_eq_some hm
        exact (List.pairwise_cons.mp hs).1 m hmmem
    · cases xs with
      | nil => simp at hr
      | cons y ys =>
        rw [List.getLast?_cons_cons] at hm
        exact ih (List.pairwise_cons.mp hs).2 hm r hr

/-! ## Further helper lemmas -/

theorem length_filterMap_isSome {α β : Type} (f : α → Option β) (l : List α) :
    (l.filterMap f).length = (l.filter (fun a => (f a).isSome)).length := by
  induction l with
  | nil => rfl
  | cons a t ih =>
    rw [List.filterMap_cons, List.filter_cons]
    cases h : f a <;> simp [h, ih]

theorem load_df_ok_records {t : RawTable} {d : Dataset}
    (h : load_df t = Except.ok d) :
    d.records = t.rows.filterMap (recordOfRow t) ∧ strL "location" ∈ normCols t := by
  unfold load_df at h
  split_ifs at h with h1 h2
  cases h
  exact ⟨rfl, h2⟩

theorem summaryOf_of_getLast {ds : Dataset} {df : List Record} {last : Record}
    (h : df.getLast? = some last) :
    summaryOf ds df =
      { count := df.length
        kpi :=
          { min_date := seriesMin (df.map (fun r => r.date))
            max_date := seriesMax (df.map (fun r => r.date))
            total_cases :=
              if ds.has_total_cases && last.total_cases.isSome then last.total_cases else none
            total_deaths :=
              if ds.has_total_deaths && last.total_deaths.isSome then last.total_deaths else none
            new_cases_7d :=
              if ds.has_new_cases then
                some (((pdTail 7 df).map (fun r => r.new_cases.getD 0)).sum)
              else none
            new_deaths_7d :=
              if ds.has_new_deaths then
                some (((pdTail 7 df).map (fun r => r.new_deaths.getD 0)).sum)
              else none }
        message := none } := by
  unfold summaryOf
  rw [h]

/-! ## Concrete sample data used by witnesses and counterexamples -/

/-- A raw row with a parseable date and location `"X"`. -/
def wRow1 : RawRecord :=
  { date := some 100, location := some "X", location_level := some "country",
    new_cases := some 2, new_deaths := some 1, total_cases := some 10,
    total_deaths := some 4 }

/-- A raw row with a later date. -/
def wRow2 : RawRecord :=
  { date := some 200, location := some "X", location_level := some "country",
    new_cases := some 3, new_deaths := none, total_cases := some 15,
    total_deaths := none }

/-- A raw row whose date cell failed to parse (`NaT`). -/
def wRowBad : RawRecord :=
  { date := none, location := some "Y", location_level := some "country",
    new_cases := some 9, new_deaths := some 9, total_cases := some 99,
    total_deaths := some 99 }

/-- A raw row with an empty location. -/
def wRowEmptyLoc : RawRecord :=
  { date := some 150, location := some "", location_level := none,
    new_cases := none, new_deaths := none, total_cases := none,
    total_deaths := none }

/-- A small well-formed raw table. -/
def wTable : RawTable :=
  { rawCols := [strL " Date", strL "Location", strL "Location Level",
                strL "New Cases", strL "New Deaths", strL "Total Cases",
                strL "Total Deaths"],
    rows := [wRow2, wRowBad, wRow1] }

/-- The Dataset `load_df` builds from `wTable`. -/
def wDataset : Dataset :=
  { has_new_cases := true, has_new_deaths := true, has_total_cases := true,
    has_total_deaths := true,
    records :=
      [{ date := 200, location := some "X", location_level := some "country",
         new_cases := some 3, new_deaths := none, total_cases := some 15,
         total_deaths := none },
       { date := 100, location := some "X", location_level := some "country",
         new_cases := some 2, new_deaths := some 1, total_cases := some 10,
         total_deaths := some 4 }] }

/-- The empty query (no parameters supplied). -/
def wQuery : Query :=
  { location := none, level := none, start := none, end_ := none }

/-- A raw table whose only row has an empty-string location. -/
def c4table : RawTable :=
  { rawCols := [strL "Date", strL "Location"], rows := [wRowEmptyLoc] }

/-! ## Claim theorems -/

/-- C1: `load_df` fails if and only if, after column normalization, the
table has no `date` column or no `location` column; when both are
present it returns a Dataset without raising. -/
theorem load_schema_error_iff (t : RawTable) :
    ((∃ msg, load_df t = Except.error msg) ↔
      (strL "date" ∉ normCols t ∨ strL "location" ∉ normCols t)) ∧
    ((∃ d, load_df t = Except.ok d) ↔
      (strL "date" ∈ normCols t ∧ strL "location" ∈ normCols t)) := by
  unfold load_df
  split_ifs with h1 h2 <;> simp_all

/-- C4 counterexample: loading a table whose single row has a parseable
date but the empty string as location succeeds and yields a Dataset
containing a record whose location is empty — refuting the claim that
every Record has a non-empty location. -/
theorem dataset_location_not_validated :
    ∃ d, load_df c4table = Except.ok d ∧
      ∃ rec ∈ d.records, rec.location = some "" := by
  refine ⟨_, rfl, ?_⟩
  decide

/-- C4 (amended): every Record in a Dataset built by `load_df` has a
valid (successfully parsed) date, originating from a raw row whose date
parsed, and the `location` column exists in the schema; per-record
location values are carried over unvalidated. -/
theorem dataset_record_provenance (t : RawTable) (d : Dataset)
    (h : load_df t = Except.ok d) :
    strL "location" ∈ normCols t ∧
    ∀ rec ∈ d.records, ∃ raw ∈ t.rows,
      raw.date = some rec.date ∧ raw.location = rec.location := by
  obtain ⟨hrec, hloc⟩ := load_df_ok_records h
  refine ⟨hloc, ?_⟩
  intro rec hmem
  rw [hrec] at hmem
  obtain ⟨raw, hraw, hf⟩ := List.mem_filterMap.mp hmem
  refine ⟨raw, hraw, ?_⟩
  unfold recordOfRow at hf
  cases hd : raw.date with
  | none => rw [hd] at hf; exact Option.noConfusion hf
  | some d0 =>
    rw [hd] at hf
    simp only [Option.map_some', Option.some.injEq] at hf
    subst hf
    exact ⟨rfl, rfl⟩

/-- Witness for the amended C4 at the concrete table `wTable`. -/
theorem dataset_record_provenance_witness :
    strL "location" ∈ normCols wTable ∧
    ∀ rec ∈ wDataset.records, ∃ raw ∈ wTable.rows,
      raw.date = some rec.date ∧ raw.location = rec.location :=
  dataset_record_provenance wTable wDataset rfl

/-- C6: rows whose date cell fails to parse never appear in the built
Dataset (the Dataset has exactly as many records as there are rows with a
parseable date), and the Dataset is no larger than the raw table. -/
theorem load_drops_unparseable_dates (t : RawTable) (d : Dataset)
    (h : load_df t = Except.ok d) :
    d.records.length = (t.rows.filter (fun r => r.date.isSome)).length ∧
    d.records.length ≤ t.rows.length := by
  obtain ⟨hrec, -⟩ := load_df_ok_records h
  have hlen : d.records.length
      = (t.rows.filter (fun r => (recordOfRow t r).isSome)).length := by
    rw [hrec, length_filterMap_isSome]
  have hsame : ∀ r ∈ t.rows, (recordOfRow t r).isSome = r.date.isSome := by
    intro r _
    unfold recordOfRow
    cases r.date <;> simp
  constructor
  · rw [hlen, List.filter_congr hsame]
  · calc d.records.length
        = (t.rows.filter (fun r => (recordOfRow t r).isSome)).length := hlen
      _ ≤ t.rows.length := List.length_filter_le _ _

/-- Witness for C6 at the concrete table `wTable` (which contains one
unparseable-date row, dropped by the loader: 2 records from 3 rows). -/
theorem load_drops_unparseable_dates_witness :
    wDataset.records.length
      = (wTable.rows.filter (fun r => r.date.isSome)).length ∧
    wDataset.records.length ≤ wTable.rows.length :=
  load_drops_unparseable_dates wTable wDataset rfl

/-- C5: a `start` (resp. `end`) clause whose date string fails to parse
is silently ignored (no lower resp. upper bound is applied): the View
equals the View of the same query with that clause absent, and no error
is raised (`apply_filters` is total). -/
theorem filters_bad_date_ignored (ds : Dataset) (q : Query) (s : String)
    (hp : parseDate s = none) :
    apply_filters ds { q with start := some s }
      = apply_filters ds { q with start := none } ∧
    apply_filters ds { q with end_ := some s }
      = apply_filters ds { q with end_ := none } := by
  by_cases hs : s = ""
  · subst hs
    constructor <;> simp [apply_filters, pyTruthy]
  · constructor <;> simp [apply_filters, pyTruthy, hs, hp]

/-- Witness for C5 at the literal string `"not-a-date"` (Scenario E of
the spec) on the concrete Dataset `wDataset`. -/
theorem filters_bad_date_ignored_witness :
    parseDate "not-a-date" = none ∧
    (apply_filters wDataset { wQuery with start := some "not-a-date" }
       = apply_filters wDataset { wQuery with start := none } ∧
     apply_filters wDataset { wQuery with end_ := some "not-a-date" }
       = apply_filters wDataset { wQuery with end_ := none }) :=
  ⟨by decide, filters_bad_date_ignored wDataset wQuery "not-a-date" (by decide)⟩

/-- C10: a query parameter supplied as the empty string is falsy in
Python, so the Filter Evaluator treats the clause as absent; in
particular `location=""` does not filter to records with empty location. -/
theorem filters_empty_string_ignored (ds : Dataset) (q : Query) :
    apply_filters ds { q with location := some "" }
      = apply_filters ds { q with location := none } ∧
    apply_filters ds { q with level := some "" }
      = apply_filters ds { q with level := none } ∧
    apply_filters ds { q with start := some "" }
      = apply_filters ds { q with start := none } ∧
    apply_filters ds { q with end_ := some "" }
      = apply_filters ds { q with end_ := none } := by
  refine ⟨?_, ?_, ?_, ?_⟩ <;> simp [apply_filters, pyTruthy]

/-- C8: when the View is empty the summary returns count 0, an empty KPI
mapping and an explanatory message, without raising. -/
theorem summary_empty_view (ds : Dataset) (q : Query)
    (h : apply_filters ds q = []) :
    summary ds q =
      { count := 0, kpi := emptyKpi, message := some "No data for filters" } := by
  unfold summary
  rw [h]
  rfl

/-- Witness for C8: `level=province` matches no record of `wDataset`
(Scenario C of the spec). -/
theorem summary_empty_view_witness :
    summary wDataset
        { location := none, level := some "province", start := none, end_ := none }
      = { count := 0, kpi := emptyKpi, message := some "No data for filters" } :=
  summary_empty_view wDataset
    { location := none, level := some "province", start := none, end_ := none }
    (by decide)

/-- C2: on a non-empty View of size `k`, when the `new_cases` (resp.
`new_deaths`) column exists in the schema, `new_cases_7d` (resp.
`new_deaths_7d`) is the sum over exactly the last `min k 7` records of
the date-sorted View, counting missing values as 0; when the column does
not exist the key is omitted (`none`). -/
theorem summary_trailing_window (ds : Dataset) (q : Query)
    (h : apply_filters ds q ≠ []) :
    ((sortByDate (apply_filters ds q)).drop ((apply_filters ds q).length - 7)).length
      = min (apply_filters ds q).length 7 ∧
    (summary ds q).kpi.new_cases_7d =
      (if ds.has_new_cases then
        some ((((sortByDate (apply_filters ds q)).drop
          ((apply_filters ds q).length - 7)).map (fun r => r.new_cases.getD 0)).sum)
      else none) ∧
    (summary ds q).kpi.new_deaths_7d =
      (if ds.has_new_deaths then
        some ((((sortByDate (apply_filters ds q)).drop
          ((apply_filters ds q).length - 7)).map (fun r => r.new_deaths.getD 0)).sum)
      else none) := by
  have hv : sortByDate (apply_filters ds q) ≠ [] := by
    intro hh
    exact h ((sortByDate_eq_nil_iff _).mp hh)
  obtain ⟨last, hl⟩ := Option.isSome_iff_exists.mp
    (List.getLast?_isSome.mpr hv)
  rw [summary, summaryOf_of_getLast hl]
  refine ⟨?_, ?_, ?_⟩
  · rw [List.length_drop, length_sortByDate]
    omega
  · simp [pdTail, length_sortByDate]
  · simp [pdTail, length_sortByDate]

/-- Witness for C2 on the concrete Dataset `wDataset` (k = 2 records,
both schema columns present; one missing `new_deaths` counted as 0). -/
theorem summary_trailing_window_witness :
    ((sortByDate (apply_filters wDataset wQuery)).drop
        ((apply_filters wDataset wQuery).length - 7)).length
      = min (apply_filters wDataset wQuery).length 7 ∧
    (summary wDataset wQuery).kpi.new_cases_7d =
      (if wDataset.has_new_cases then
        some ((((sortByDate (apply_filters wDataset wQuery)).drop
          ((apply_filters wDataset wQuery).length - 7)).map
            (fun r => r.new_cases.getD 0)).sum)
      else none) ∧
    (summary wDataset wQuery).kpi.new_deaths_7d =
      (if wDataset.has_new_deaths then
        some ((((sortByDate (apply_filters wDataset wQuery)).drop
          ((apply_filters wDataset wQuery).length - 7)).map
            (fun r => r.new_deaths.getD 0)).sum)
      else none) :=
  summary_trailing_window wDataset wQuery (by decide)

/-- The chronologically last record of `wDataset` under the empty query. -/
def wLast : Record :=
  { date := 200, location := some "X", location_level := some "country",
    new_cases := some 3, new_deaths := none, total_cases := some 15,
    total_deaths := none }

/-- C7: on a non-empty View, `min_date` and `max_date` are always
included; `total_cases` (resp. `total_deaths`) equals the value of the
chronologically last record exactly when the column exists in the schema
and that record's value is present, and is omitted (`none`) otherwise;
the record `last` is indeed chronologically last (maximal date). -/
theorem summary_latest_totals (ds : Dataset) (q : Query) (last : Record)
    (hl : (sortByDate (apply_filters ds q)).getLast? = some last) :
    ((summary ds q).kpi.min_date).isSome = true ∧
    ((summary ds q).kpi.max_date).isSome = true ∧
    (summary ds q).kpi.total_cases =
      (if ds.has_total_cases && last.total_cases.isSome
       then last.total_cases else none) ∧
    (summary ds q).kpi.total_deaths =
      (if ds.has_total_deaths && last.total_deaths.isSome
       then last.total_deaths else none) ∧
    ∀ r ∈ sortByDate (apply_filters ds q), r.date ≤ last.date := by
  have hsorted := sorted_sortByDate (apply_filters ds q)
  rw [summary, summaryOf_of_getLast hl]
  refine ⟨?_, ?_, rfl, rfl, ?_⟩
  · cases hsv : sortByDate (apply_filters ds q) with
    | nil => rw [hsv] at hl; exact Option.noConfusion hl
    | cons a t => simp [seriesMin]
  · cases hsv : sortByDate (apply_filters ds q) with
    | nil => rw [hsv] at hl; exact Option.noConfusion hl
    | cons a t => simp [seriesMax]
  · exact le_of_getLast?_sorted _ last hsorted hl

/-- Witness for C7 on the concrete Dataset `wDataset`: the last record
has a present `total_cases` (included) and a missing `total_deaths`
(omitted even though the column exists). -/
theorem summary_latest_totals_witness :
    ((summary wDataset wQuery).kpi.min_date).isSome = true ∧
    ((summary wDataset wQuery).kpi.max_date).isSome = true ∧
    (summary wDataset wQuery).kpi.total_cases =
      (if wDataset.has_total_cases && wLast.total_cases.isSome
       then wLast.total_cases else none) ∧
    (summary wDataset wQuery).kpi.total_deaths =
      (if wDataset.has_total_deaths && wLast.total_deaths.isSome
       then wLast.total_deaths else none) ∧
    ∀ r ∈ sortByDate (apply_filters wDataset wQuery), r.date ≤ wLast.date :=
  summary_latest_totals wDataset wQuery wLast (by decide)

/-- C3: the record listing returns exactly the last `parseLimit lim`
records of the date-sorted View, so its size is
`min (parseLimit lim) (len View)`; an integer limit is clamped to the
nearest bound of `[1, 20000]`; a non-integer limit string falls back to
3000, as does an absent limit, never an error (`cases` is total). -/
theorem cases_limit_spec (ds : Dataset) (q : Query) (lim : Option String) :
    (cases ds q lim).data =
      (sortByDate (apply_filters ds q)).drop
        ((apply_filters ds q).length - parseLimit lim) ∧
    (cases ds q lim).count
      = min (parseLimit lim) (apply_filters ds q).length ∧
    (∀ s z, pyInt s = some z →
      parseLimit (some s)
        = (if z < 1 then 1 else if z > 20000 then 20000 else z).toNat) ∧
    (∀ s, pyInt s = none → parseLimit (some s) = 3000) ∧
    parseLimit none = 3000 := by
  refine ⟨?_, ?_, ?_, ?_, rfl⟩
  · simp [cases, pdTail, length_sortByDate]
  · simp only [cases, pdTail, List.length_drop, length_sortByDate]
    omega
  · intro s z hz
    simp only [parseLimit, Option.getD_some, hz]
    omega
  · intro s hz
    simp [parseLimit, hz]

/-- Witness for C3: a non-integer limit falls back to 3000, `"0"` clamps
to 1, `"25000"` clamps to 20000, and the count on `wDataset` with limit
`"1"` is `min 1 2 = 1`. -/
theorem cases_limit_spec_witness :
    parseLimit (some "abc") = 3000 ∧
    parseLimit (some "0") = 1 ∧
    parseLimit (some "25000") = 20000 ∧
    (cases wDataset wQuery (some "1")).count
      = min (parseLimit (some "1")) (apply_filters wDataset wQuery).length :=
  ⟨(cases_limit_spec wDataset wQuery (some "abc")).2.2.2.1 "abc" (by decide),
   (cases_limit_spec wDataset wQuery (some "0")).2.2.1 "0" 0 (by decide),
   (cases_limit_spec wDataset wQuery (some "25000")).2.2.1 "25000" 25000 (by decide),
   (cases_limit_spec wDataset wQuery (some "1")).2.1⟩

end Phars


